import Mathlib

/-!
# Verification of the localfab.now volume / print-estimate core

Shallow embedding of the 3D-file volume computation and print-estimate
pipeline of this repository (`src/unnamed/part_000`, the revision the
claims cite, together with the origin-referenced tetrahedron routine of
`src/lib/3d-utils.ts`).

Modelling conventions:
* JavaScript `number` arithmetic is modelled by exact rational arithmetic
  (`ℚ`).  The irrational primitives `Math.cbrt`, `Math.sqrt` and `Math.PI`
  appear in the source only inside the heuristic estimators; they are taken
  as explicit function/value parameters of the corresponding definitions,
  so that every theorem below holds for the real primitives in particular.
* A JavaScript value that may be `NaN`/`±Infinity` where the source tests
  for it is modelled by the inductive type `JsNum`; a rational value is
  always finite, so where the source checks `isFinite` on a value that the
  model produces as a plain `ℚ` the check is modelled by `isFiniteQ`,
  which is constantly `true`.
* Byte buffers are lists of naturals; the numeric bodies of the STL
  parsers (which never throw after the checks that are modelled) are
  abstracted as total function parameters.
-/

/-- A 3-component vector, millimetres (`{x, y, z}` objects in the source). -/
structure Vec3 where
  x : ℚ
  y : ℚ
  z : ℚ
deriving DecidableEq, Repr

/-- A triangle: exactly three vertices, as produced by each parser. -/
structure Triangle where
  a : Vec3
  b : Vec3
  c : Vec3
deriving DecidableEq, Repr

/-- `calculateTetrahedronVolume` of `src/unnamed/part_000` lines 275-296:
signed volume `dot(p1, cross(p2, p3)) / 6` of the tetrahedron spanned by the
triangle and a reference point (the `referencePoint || {x:0,y:0,z:0}`
default is modelled by `Option.getD`). -/
def calculateTetrahedronVolume (v1 v2 v3 : Vec3) (referencePoint : Option Vec3) : ℚ :=
  let ref := referencePoint.getD ⟨0, 0, 0⟩
  let p1 : Vec3 := ⟨v1.x - ref.x, v1.y - ref.y, v1.z - ref.z⟩
  let p2 : Vec3 := ⟨v2.x - ref.x, v2.y - ref.y, v2.z - ref.z⟩
  let p3 : Vec3 := ⟨v3.x - ref.x, v3.y - ref.y, v3.z - ref.z⟩
  let crossX := p2.y * p3.z - p2.z * p3.y
  let crossY := p2.z * p3.x - p2.x * p3.z
  let crossZ := p2.x * p3.y - p2.y * p3.x
  (p1.x * crossX + p1.y * crossY + p1.z * crossZ) / 6

/-- `calculateTetrahedronVolume` of `src/lib/3d-utils.ts` lines 164-176 (the
origin-referenced revision): signed volume `dot(v1, cross(v2, v3)) / 6`. -/
def tetrahedronVolumeOrigin (v1 v2 v3 : Vec3) : ℚ :=
  let crossX := v2.y * v3.z - v2.z * v3.y
  let crossY := v2.z * v3.x - v2.x * v3.z
  let crossZ := v2.x * v3.y - v2.y * v3.x
  (v1.x * crossX + v1.y * crossY + v1.z * crossZ) / 6

example :
    calculateTetrahedronVolume ⟨1, 0, 0⟩ ⟨0, 1, 0⟩ ⟨0, 0, 1⟩ (some ⟨0, 0, 0⟩) = 1 / 6 := by
  norm_num [calculateTetrahedronVolume]

example : tetrahedronVolumeOrigin ⟨1, 0, 0⟩ ⟨0, 1, 0⟩ ⟨0, 0, 1⟩ = 1 / 6 := by
  norm_num [tetrahedronVolumeOrigin]

/-! ## Mesh-level volume computation

The three parsers of `src/unnamed/part_000` (`parseBinarySTL`,
`parseASCIISTL`, `calculateOBJVolume`, `calculateVolumeFromMeshes`) all share
one pattern once the triangle soup is extracted: compute the centroid of all
contributing vertices as reference point, sum the signed tetrahedron volumes
against it, and return `|total| / 1000` (mm³ → cm³). -/

/-- All vertices of a triangle list in order (pass 1 of the parsers). -/
def meshVertices (tris : List Triangle) : List Vec3 :=
  tris.flatMap fun t => [t.a, t.b, t.c]

/-- Centroid of a vertex list, `{x:0,y:0,z:0}` when the list is empty
(the `vertexCount > 0 ? sums/count : {0,0,0}` pattern of the source). -/
def centroid (vs : List Vec3) : Vec3 :=
  if vs.length = 0 then ⟨0, 0, 0⟩
  else
    ⟨(vs.map Vec3.x).sum / vs.length, (vs.map Vec3.y).sum / vs.length,
      (vs.map Vec3.z).sum / vs.length⟩

/-- Pass 2 of the parsers: accumulate signed tetrahedron volumes against a
fixed reference point (in exact arithmetic every contribution is finite, so
the source's per-triangle `isFinite` guard always passes). -/
def meshSignedVolumeWithRef (ref : Vec3) (tris : List Triangle) : ℚ :=
  (tris.map fun t => calculateTetrahedronVolume t.a t.b t.c (some ref)).sum

/-- The full shared volume computation: centroid reference point, signed sum,
`|total mm³| / 1000` cm³. -/
def meshVolume (tris : List Triangle) : ℚ :=
  |meshSignedVolumeWithRef (centroid (meshVertices tris)) tris| / 1000

/-- Translation of a vertex by a constant vector. -/
def translateVec (t v : Vec3) : Vec3 :=
  ⟨v.x + t.x, v.y + t.y, v.z + t.z⟩

/-- Translation of a whole triangle by a constant vector. -/
def translateTri (t : Vec3) (tr : Triangle) : Triangle :=
  ⟨translateVec t tr.a, translateVec t tr.b, translateVec t tr.c⟩

/-- The three directed edges of a triangle. -/
def triangleEdges (t : Triangle) : List (Vec3 × Vec3) :=
  [(t.a, t.b), (t.b, t.c), (t.c, t.a)]

/-- All directed edges of a triangle soup, as a multiset. -/
def edgeMultiset (tris : List Triangle) : Multiset (Vec3 × Vec3) :=
  ↑(tris.flatMap triangleEdges)

/-- A triangle soup is closed when its directed edges pair up with their
reverses: the edge multiset is invariant under swapping each edge. -/
def MeshIsClosed (tris : List Triangle) : Prop :=
  edgeMultiset tris = (edgeMultiset tris).map Prod.swap

instance (tris : List Triangle) : Decidable (MeshIsClosed tris) := by
  unfold MeshIsClosed; infer_instance

/-- x-component of the cross product of two vectors. -/
def crossVX (u v : Vec3) : ℚ := u.y * v.z - u.z * v.y

/-- y-component of the cross product of two vectors. -/
def crossVY (u v : Vec3) : ℚ := u.z * v.x - u.x * v.z

/-- z-component of the cross product of two vectors. -/
def crossVZ (u v : Vec3) : ℚ := u.x * v.y - u.y * v.x

/-- Sum over all directed edges `(u,v)` of a component of `u × v`. -/
def edgeCrossSum (f : Vec3 → Vec3 → ℚ) (tris : List Triangle) : ℚ :=
  ((edgeMultiset tris).map fun e => f e.1 e.2).sum

/-! ### Reference-point algebra -/

lemma tetra_ref_zero (v1 v2 v3 : Vec3) :
    calculateTetrahedronVolume v1 v2 v3 (some ⟨0, 0, 0⟩) = tetrahedronVolumeOrigin v1 v2 v3 := by
  simp only [calculateTetrahedronVolume, tetrahedronVolumeOrigin, Option.getD_some]
  ring

/-- Changing the reference point shifts each signed tetrahedron volume by the
dot product of the reference point with the triangle's directed-edge cross
sum (its doubled vector area). -/
lemma tetra_ref_shift (t : Triangle) (r : Vec3) :
    calculateTetrahedronVolume t.a t.b t.c (some r) =
      tetrahedronVolumeOrigin t.a t.b t.c -
        (r.x * (crossVX t.a t.b + crossVX t.b t.c + crossVX t.c t.a) +
            r.y * (crossVY t.a t.b + crossVY t.b t.c + crossVY t.c t.a) +
            r.z * (crossVZ t.a t.b + crossVZ t.b t.c + crossVZ t.c t.a)) / 6 := by
  simp only [calculateTetrahedronVolume, tetrahedronVolumeOrigin, crossVX, crossVY, crossVZ,
    Option.getD_some]
  ring

lemma edgeMultiset_cons (t : Triangle) (ts : List Triangle) :
    edgeMultiset (t :: ts) = ↑(triangleEdges t) + edgeMultiset ts := by
  simp [edgeMultiset, List.flatMap_cons]

lemma edgeCrossSum_cons (f : Vec3 → Vec3 → ℚ) (t : Triangle) (ts : List Triangle) :
    edgeCrossSum f (t :: ts) =
      (f t.a t.b + f t.b t.c + f t.c t.a) + edgeCrossSum f ts := by
  simp [edgeCrossSum, edgeMultiset_cons, triangleEdges]
  ring

/-- Pass 2 with an arbitrary reference point, versus the origin: the totals
differ by the dot product of the reference point with the summed
directed-edge cross products of the whole soup. -/
lemma meshSignedVolumeWithRef_shift (r : Vec3) (tris : List Triangle) :
    meshSignedVolumeWithRef r tris =
      meshSignedVolumeWithRef ⟨0, 0, 0⟩ tris -
        (r.x * edgeCrossSum crossVX tris + r.y * edgeCrossSum crossVY tris +
            r.z * edgeCrossSum crossVZ tris) / 6 := by
  induction tris with
  | nil => simp [meshSignedVolumeWithRef, edgeCrossSum, edgeMultiset]
  | cons t ts ih =>
      simp only [meshSignedVolumeWithRef, List.map_cons, List.sum_cons] at ih ⊢
      rw [tetra_ref_shift, ih, tetra_ref_zero, edgeCrossSum_cons, edgeCrossSum_cons,
        edgeCrossSum_cons]
      ring

/-- On a closed soup every directed-edge cross-product sum vanishes, because
the edges pair up with their reverses and the cross product is
anticommutative. -/
lemma edgeCrossSum_eq_zero_of_closed (f : Vec3 → Vec3 → ℚ)
    (hf : ∀ u v, f v u = -(f u v)) {tris : List Triangle}
    (h : MeshIsClosed tris) : edgeCrossSum f tris = 0 := by
  have key : edgeCrossSum f tris = -(edgeCrossSum f tris) := by
    conv_lhs => rw [edgeCrossSum, h]
    rw [Multiset.map_map]
    have : ((edgeMultiset tris).map fun e => f (Prod.swap e).1 (Prod.swap e).2).sum =
        ((edgeMultiset tris).map fun e => -(f e.1 e.2)).sum := by
      congr 1
      refine Multiset.map_congr rfl ?_
      intro e _
      exact hf e.1 e.2
    rw [Function.comp_def]
    rw [this]
    simp [edgeCrossSum]
  linarith

lemma crossVX_anticomm (u v : Vec3) : crossVX v u = -(crossVX u v) := by
  simp [crossVX]; ring

lemma crossVY_anticomm (u v : Vec3) : crossVY v u = -(crossVY u v) := by
  simp [crossVY]; ring

lemma crossVZ_anticomm (u v : Vec3) : crossVZ v u = -(crossVZ u v) := by
  simp [crossVZ]; ring

/-- For a closed soup the signed-volume total is independent of the reference
point. -/
lemma meshSignedVolumeWithRef_closed (tris : List Triangle) (h : MeshIsClosed tris)
    (r r' : Vec3) : meshSignedVolumeWithRef r tris = meshSignedVolumeWithRef r' tris := by
  rw [meshSignedVolumeWithRef_shift r, meshSignedVolumeWithRef_shift r',
    edgeCrossSum_eq_zero_of_closed crossVX crossVX_anticomm h,
    edgeCrossSum_eq_zero_of_closed crossVY crossVY_anticomm h,
    edgeCrossSum_eq_zero_of_closed crossVZ crossVZ_anticomm h]
  ring

/-! ### Translation invariance -/

lemma tetra_translate (t : Vec3) (a b c r : Vec3) :
    calculateTetrahedronVolume (translateVec t a) (translateVec t b) (translateVec t c)
        (some (translateVec t r)) =
      calculateTetrahedronVolume a b c (some r) := by
  simp only [calculateTetrahedronVolume, translateVec, Option.getD_some]
  ring

lemma meshVertices_translate (t : Vec3) (tris : List Triangle) :
    meshVertices (tris.map (translateTri t)) = (meshVertices tris).map (translateVec t) := by
  induction tris with
  | nil => rfl
  | cons s ts ih => simp [meshVertices, translateTri, List.flatMap_cons] at ih ⊢; exact ih

lemma sum_map_add_const (vs : List Vec3) (f : Vec3 → ℚ) (c : ℚ) :
    (vs.map fun v => f v + c).sum = (vs.map f).sum + vs.length * c := by
  induction vs with
  | nil => simp
  | cons v ts ih => simp [ih]; ring

lemma centroid_translate (t : Vec3) (vs : List Vec3) (h : vs ≠ []) :
    centroid (vs.map (translateVec t)) = translateVec t (centroid vs) := by
  have hl : vs.length ≠ 0 := fun hh => h (List.length_eq_zero.mp hh)
  have hn : (vs.length : ℚ) ≠ 0 := Nat.cast_ne_zero.2 hl
  have e1 : (vs.map fun v => (translateVec t v).x).sum = (vs.map Vec3.x).sum + vs.length * t.x := by
    exact sum_map_add_const vs (fun v => v.x) t.x
  have e2 : (vs.map fun v => (translateVec t v).y).sum = (vs.map Vec3.y).sum + vs.length * t.y := by
    exact sum_map_add_const vs (fun v => v.y) t.y
  have e3 : (vs.map fun v => (translateVec t v).z).sum = (vs.map Vec3.z).sum + vs.length * t.z := by
    exact sum_map_add_const vs (fun v => v.z) t.z
  unfold centroid
  rw [List.length_map, if_neg hl, if_neg hl]
  simp only [List.map_map, Function.comp_def]
  rw [e1, e2, e3]
  simp only [translateVec]
  congr 1 <;> field_simp <;> ring

lemma meshSignedVolumeWithRef_translate (t : Vec3) (r : Vec3) (tris : List Triangle) :
    meshSignedVolumeWithRef (translateVec t r) (tris.map (translateTri t)) =
      meshSignedVolumeWithRef r tris := by
  induction tris with
  | nil => rfl
  | cons s ts ih =>
      simp only [meshSignedVolumeWithRef, List.map_cons, List.sum_cons] at ih ⊢
      rw [ih]
      congr 1
      exact tetra_translate t s.a s.b s.c r

/-- Translating every vertex of a soup by a constant vector leaves the full
centroid-referenced volume computation unchanged. -/
lemma meshVolume_translate (t : Vec3) (tris : List Triangle) :
    meshVolume (tris.map (translateTri t)) = meshVolume tris := by
  rcases tris with _ | ⟨s, ts⟩
  · rfl
  · have hne : meshVertices (s :: ts) ≠ [] := by simp [meshVertices, List.flatMap_cons]
    rw [meshVolume, meshVolume, meshVertices_translate, centroid_translate _ _ hne,
      meshSignedVolumeWithRef_translate]

/-- C7: translating all vertices of a mesh by a constant vector before the
reference-point step does not change the final computed volume; for a closed
mesh the choice of reference point does not change the signed-volume total,
and therefore the centroid-referenced computation of `src/unnamed/part_000`
agrees on closed meshes with the origin-referenced revision of
`src/lib/3d-utils.ts` (exact arithmetic). -/
theorem C7_reference_point_invariance :
    (∀ (t : Vec3) (tris : List Triangle),
        meshVolume (tris.map (translateTri t)) = meshVolume tris) ∧
      (∀ (tris : List Triangle), MeshIsClosed tris → ∀ r r' : Vec3,
        meshSignedVolumeWithRef r tris = meshSignedVolumeWithRef r' tris) ∧
      (∀ (tris : List Triangle), MeshIsClosed tris →
        meshVolume tris =
          |(tris.map fun tr => tetrahedronVolumeOrigin tr.a tr.b tr.c).sum| / 1000) := by
  refine ⟨meshVolume_translate, fun tris h r r' => meshSignedVolumeWithRef_closed tris h r r',
    fun tris h => ?_⟩
  rw [meshVolume, meshSignedVolumeWithRef_closed tris h _ ⟨0, 0, 0⟩]
  simp only [meshSignedVolumeWithRef]
  congr 3
  exact List.map_congr_left fun (t : Triangle) _ => tetra_ref_zero t.a t.b t.c

/-- A concrete closed tetrahedron mesh (unit right tetrahedron). -/
def tetraMesh : List Triangle :=
  [⟨⟨0, 0, 0⟩, ⟨1, 0, 0⟩, ⟨0, 1, 0⟩⟩,
   ⟨⟨0, 0, 0⟩, ⟨0, 0, 1⟩, ⟨1, 0, 0⟩⟩,
   ⟨⟨0, 0, 0⟩, ⟨0, 1, 0⟩, ⟨0, 0, 1⟩⟩,
   ⟨⟨1, 0, 0⟩, ⟨0, 0, 1⟩, ⟨0, 1, 0⟩⟩]

/-- Witness for C7: the concrete tetrahedron mesh is closed, and its
signed-volume total is the same for two different reference points. -/
theorem C7_reference_point_invariance_witness :
    MeshIsClosed tetraMesh ∧
      meshSignedVolumeWithRef ⟨5, 7, 11⟩ tetraMesh =
        meshSignedVolumeWithRef ⟨0, 0, 0⟩ tetraMesh :=
  ⟨by decide, C7_reference_point_invariance.2.1 tetraMesh (by decide) ⟨5, 7, 11⟩ ⟨0, 0, 0⟩⟩

/-! ## Print settings and the price calculator

From `src/unnamed/part_000`: the `PrintSettings` input record (lines 5-13),
the material/speed tables, `calculatePrice` (lines 791-871). -/

/-- The `PrintSettings` input record.  Optional JS fields (`speed?`,
`delivery?`, `deliveryDistance?: number | null`) are `Option`s; `null` and
`undefined` are both `none`. -/
structure PrintSettings where
  material : String
  infill : ℚ
  layerHeight : ℚ
  quantity : ℚ
  speed : Option String
  delivery : Option String
  deliveryDistance : Option ℚ
deriving DecidableEq, Repr

/-- `MATERIAL_DENSITIES` (lines 26-31), g/cm³. -/
def MATERIAL_DENSITIES (m : String) : Option ℚ :=
  if m = "pla" then some 1.24
  else if m = "petg" then some 1.27
  else if m = "abs" then some 1.04
  else if m = "tpu" then some 1.20
  else none

/-- `MATERIAL_DENSITIES[settings.material] || MATERIAL_DENSITIES.pla`. -/
def materialDensity (m : String) : ℚ :=
  (MATERIAL_DENSITIES m).getD 1.24

/-- `speedMultipliers` table inside `calculatePrice` (lines 799-803). -/
def speedMultipliers (s : String) : Option ℚ :=
  if s = "instant" then some 5.0
  else if s = "fast" then some 2.5
  else if s = "regular" then some 1.0
  else none

/-- `speedMultipliers[settings.speed || 'regular'] || 1.0`. -/
def speedMultiplierOf (speed : Option String) : ℚ :=
  (speedMultipliers (speed.getD "regular")).getD 1.0

/-- `getQuantityDiscount` (lines 823-828). -/
def getQuantityDiscount (qty : ℚ) : ℚ :=
  if 10 ≤ qty then 0.15
  else if 5 ≤ qty then 0.10
  else if 3 ≤ qty then 0.05
  else 0

/-- Return record of `calculatePrice`. -/
structure PriceBreakdown where
  totalPrice : ℚ
  manufacturingPrice : ℚ
  deliveryPrice : ℚ
deriving DecidableEq, Repr

/-- `calculatePrice` (lines 791-871): $15/h base rate, speed multiplier,
$10 per-unit minimum, quantity discount, quantity multiplication, and the
optional travel-time delivery fee. -/
def calculatePrice (estimatedTime : ℚ) (settings : PrintSettings) : PriceBreakdown :=
  let baseRatePerHour : ℚ := 15.0
  let timeHours := estimatedTime / 60
  let baseTimeCost := timeHours * baseRatePerHour
  let speedMultiplier := speedMultiplierOf settings.speed
  let pricePerUnit := baseTimeCost * speedMultiplier
  let minimumCharge : ℚ := 10.0
  let priceWithMinimum := max minimumCharge pricePerUnit
  let quantityDiscount := getQuantityDiscount settings.quantity
  let discountedPricePerUnit := priceWithMinimum * (1 - quantityDiscount)
  let manufacturingPrice := discountedPricePerUnit * settings.quantity
  let deliveryPrice :=
    if settings.delivery = some "delivery" then
      match settings.deliveryDistance with
      | some distanceKm =>
          let averageSpeedKmh : ℚ := 40
          let travelTimeOneWay := distanceKm / averageSpeedKmh
          let totalTravelTime := travelTimeOneWay * 2
          let deliveryRatePerHour : ℚ := 25.0
          let deliveryFee := totalTravelTime * deliveryRatePerHour
          let minimumDeliveryFee : ℚ := 10.0
          max minimumDeliveryFee deliveryFee
      | none => 0
    else 0
  let totalPrice := manufacturingPrice + deliveryPrice
  { totalPrice := totalPrice, manufacturingPrice := manufacturingPrice,
    deliveryPrice := deliveryPrice }

example :
    (calculatePrice 60 ⟨"pla", 25, 0.2, 1, some "regular", some "pickup", none⟩).manufacturingPrice
      = 15 := by
  simp [calculatePrice, speedMultiplierOf, speedMultipliers, getQuantityDiscount, max_def]
  norm_num

/-- The manufacturing price of `calculatePrice`, written out. -/
lemma manufacturingPrice_eq (t : ℚ) (s : PrintSettings) :
    (calculatePrice t s).manufacturingPrice =
      max 10 (t / 60 * 15 * speedMultiplierOf s.speed) *
        (1 - getQuantityDiscount s.quantity) * s.quantity := by
  simp only [calculatePrice]
  norm_num

/-- The delivery price of `calculatePrice`, written out. -/
lemma deliveryPrice_eq (t : ℚ) (s : PrintSettings) :
    (calculatePrice t s).deliveryPrice =
      if s.delivery = some "delivery" then
        (match s.deliveryDistance with
          | some d => max 10 (d / 40 * 2 * 25)
          | none => 0)
      else 0 := by
  simp only [calculatePrice]
  split_ifs with h
  · rcases s.deliveryDistance with _ | d <;> norm_num
  · norm_num

/-- C3: in `calculatePrice` the quantity discount multiplies the (minimum-
adjusted) per-unit price before the quantity multiplication, and the tiers
are 15% at ≥10, 10% at ≥5, 5% at ≥3, none below 3; hence at an equal
per-unit base price the quantity-10 manufacturing price is exactly
`10 × 0.85 ×` the quantity-1 manufacturing price. -/
theorem C3_quantity_discount_structure :
    (∀ (t : ℚ) (s : PrintSettings),
        (calculatePrice t s).manufacturingPrice =
          max 10 (t / 60 * 15 * speedMultiplierOf s.speed) *
            (1 - getQuantityDiscount s.quantity) * s.quantity) ∧
      (∀ (t : ℚ) (s : PrintSettings),
        (calculatePrice t { s with quantity := 10 }).manufacturingPrice =
          10 * 0.85 * (calculatePrice t { s with quantity := 1 }).manufacturingPrice) := by
  refine ⟨manufacturingPrice_eq, fun t s => ?_⟩
  rw [manufacturingPrice_eq, manufacturingPrice_eq]
  norm_num [getQuantityDiscount]
  ring

/-- C4: `deliveryPrice` is 0 for pickup mode and whenever no distance is
supplied; in delivery mode with distance `d` km it is
`max(10, 2 × (d/40) × 25)`, hence exactly 25 at `d = 20`. -/
theorem C4_delivery_price :
    ∀ (t : ℚ) (s : PrintSettings),
      (s.delivery = some "pickup" → (calculatePrice t s).deliveryPrice = 0) ∧
        (s.deliveryDistance = none → (calculatePrice t s).deliveryPrice = 0) ∧
        (∀ d : ℚ, s.delivery = some "delivery" → s.deliveryDistance = some d →
          (calculatePrice t s).deliveryPrice = max 10 (2 * (d / 40) * 25)) ∧
        (s.delivery = some "delivery" → s.deliveryDistance = some 20 →
          (calculatePrice t s).deliveryPrice = 25) := by
  intro t s
  refine ⟨fun h => ?_, fun h => ?_, fun d h1 h2 => ?_, fun h1 h2 => ?_⟩
  · rw [deliveryPrice_eq]
    simp [h]
  · rw [deliveryPrice_eq, h]
    split_ifs <;> rfl
  · rw [deliveryPrice_eq]
    simp only [h1, h2, if_pos]
    congr 1
    ring
  · rw [deliveryPrice_eq]
    simp only [h1, h2, if_pos]
    norm_num [max_def]

/-- Witness for C4 at concrete inputs: pickup gives 0, delivery at 20 km
gives 25. -/
theorem C4_delivery_price_witness :
    (calculatePrice 60 ⟨"pla", 25, 0.2, 1, some "regular", some "pickup", none⟩).deliveryPrice
        = 0 ∧
      (calculatePrice 60
          ⟨"pla", 25, 0.2, 1, some "regular", some "delivery", some 20⟩).deliveryPrice = 25 :=
  ⟨(C4_delivery_price 60 ⟨"pla", 25, 0.2, 1, some "regular", some "pickup", none⟩).1 rfl,
    (C4_delivery_price 60
      ⟨"pla", 25, 0.2, 1, some "regular", some "delivery", some 20⟩).2.2.2 rfl rfl⟩

/-- C10: the $10 minimum is applied to the per-unit price before the quantity
discount, so when the undiscounted per-unit cost is at most $10 and the
quantity reaches a discount tier, the charged per-unit price is
`10 × (1 − discount) < 10` and the manufacturing price is
`quantity × 10 × (1 − discount)`. -/
theorem C10_minimum_before_discount (t : ℚ) (s : PrintSettings)
    (hppu : t / 60 * 15 * speedMultiplierOf s.speed ≤ 10) (hq : 3 ≤ s.quantity) :
    max 10 (t / 60 * 15 * speedMultiplierOf s.speed) * (1 - getQuantityDiscount s.quantity)
        = 10 * (1 - getQuantityDiscount s.quantity) ∧
      10 * (1 - getQuantityDiscount s.quantity) < 10 ∧
      (calculatePrice t s).manufacturingPrice =
        s.quantity * (10 * (1 - getQuantityDiscount s.quantity)) := by
  have hmax : max 10 (t / 60 * 15 * speedMultiplierOf s.speed) = 10 := max_eq_left hppu
  have hdisc : (0 : ℚ) < getQuantityDiscount s.quantity := by
    unfold getQuantityDiscount
    split_ifs <;> norm_num
  refine ⟨by rw [hmax], by nlinarith, ?_⟩
  rw [manufacturingPrice_eq, hmax]
  ring

/-- Witness for C10: zero print time (so per-unit cost 0 ≤ $10) and
quantity 3 give manufacturing price `3 × 10 × 0.95 = 28.5`. -/
theorem C10_minimum_before_discount_witness :
    (calculatePrice 0 ⟨"pla", 25, 0.2, 3, none, none, none⟩).manufacturingPrice =
      3 * (10 * (1 - getQuantityDiscount 3)) :=
  (C10_minimum_before_discount 0 ⟨"pla", 25, 0.2, 3, none, none, none⟩
    (by norm_num [speedMultiplierOf, speedMultipliers]) (by norm_num)).2.2

/-! ## Estimators

`estimateFilamentGrams`, `estimateFilamentMeters`, `estimatePrintTime`
(`src/unnamed/part_000` lines 687-786).  `Math.cbrt`, `Math.sqrt` and
`Math.PI` are taken as parameters (`cbrt`, `sqrt`, `pi`): every theorem
below is proved for all values of these parameters, hence in particular for
the real cube root, square root and π. -/

/-- `estimateFilamentGrams` (lines 687-727): shell + infill heuristic mass
model. -/
def estimateFilamentGrams (cbrt sqrt : ℚ → ℚ) (volumeCm3 : ℚ)
    (settings : PrintSettings) : ℚ :=
  if volumeCm3 ≤ 0 then 0
  else
    let density := materialDensity settings.material
    let volumeMm3 := volumeCm3 * 1000
    let estimatedHeight := max 0.1 (cbrt volumeMm3)
    let estimatedBaseArea := max 1 (volumeMm3 / estimatedHeight)
    let estimatedPerimeter := sqrt estimatedBaseArea * 4
    let perimeterVolume := estimatedPerimeter * estimatedHeight * 0.4 * 2
    let topBottomVolume := estimatedBaseArea * settings.layerHeight * 3 * 2
    let shellVolume := max 0 ((perimeterVolume + topBottomVolume) / 1000)
    let infillVolume := max 0 ((volumeCm3 - shellVolume) * (settings.infill / 100))
    let totalMaterialVolume := shellVolume + infillVolume
    let adjustedVolume := totalMaterialVolume * 1.08
    let grams := adjustedVolume * density * settings.quantity
    max 0 grams

/-- `estimateFilamentMeters` (lines 732-747): grams → filament length via the
1.75 mm filament cross-section. -/
def estimateFilamentMeters (pi : ℚ) (grams : ℚ) (material : String) : ℚ :=
  let density := materialDensity material
  let volumeCm3 := grams / density
  let volumeMm3 := volumeCm3 * 1000
  let crossSectionArea := pi * (1.75 / 2) ^ 2
  let lengthMm := volumeMm3 / crossSectionArea
  lengthMm / 1000

/-- `estimatePrintTime` (lines 752-786): layer-count heuristic print-time
model; note the final `× quantity`. -/
def estimatePrintTime (cbrt sqrt : ℚ → ℚ) (volumeCm3 : ℚ)
    (settings : PrintSettings) : ℚ :=
  let estimatedHeight := cbrt (volumeCm3 * 1000) * 0.8
  let layerCount : ℚ := max 1 (⌈estimatedHeight / settings.layerHeight⌉ : ℚ)
  let baseArea := volumeCm3 * 1000 / estimatedHeight
  let perimeterLength := sqrt baseArea * 4 * 2
  let perimeterTime := perimeterLength * layerCount / 50
  let infillArea := baseArea * (settings.infill / 100)
  let infillLength := infillArea / 0.4
  let infillTime := infillLength * layerCount / 60
  let firstLayerTime := perimeterLength / 20
  let layerChangeTime := layerCount * 5
  let totalSeconds := perimeterTime + infillTime + firstLayerTime + layerChangeTime
  totalSeconds / 60 * 1.2 * settings.quantity

/-- The quantity-1 print time: everything in `estimatePrintTime` except the
final quantity factor is independent of the quantity. -/
lemma estimatePrintTime_quantity (cbrt sqrt : ℚ → ℚ) (volumeCm3 : ℚ)
    (s : PrintSettings) :
    estimatePrintTime cbrt sqrt volumeCm3 s =
      s.quantity * estimatePrintTime cbrt sqrt volumeCm3 { s with quantity := 1 } := by
  simp only [estimatePrintTime]
  ring

/-- C8: quantity enters the pipeline twice — `estimatePrintTime` multiplies
the total time by quantity and `calculatePrice` multiplies the per-unit cost
by quantity again — so above the $10 minimum the end-to-end manufacturing
price is `quantity² × (1 − discount) ×` the quantity-1 per-unit cost, i.e.
quadratic (up to the discount factor) rather than linear in quantity. -/
theorem C8_quantity_squared (cbrt sqrt : ℚ → ℚ) (volumeCm3 : ℚ) (s : PrintSettings)
    (h : 10 < estimatePrintTime cbrt sqrt volumeCm3 s / 60 * 15 * speedMultiplierOf s.speed) :
    estimatePrintTime cbrt sqrt volumeCm3 s =
        s.quantity * estimatePrintTime cbrt sqrt volumeCm3 { s with quantity := 1 } ∧
      (calculatePrice (estimatePrintTime cbrt sqrt volumeCm3 s) s).manufacturingPrice =
        s.quantity ^ 2 * (1 - getQuantityDiscount s.quantity) *
          (estimatePrintTime cbrt sqrt volumeCm3 { s with quantity := 1 } / 60 * 15 *
            speedMultiplierOf s.speed) := by
  refine ⟨estimatePrintTime_quantity cbrt sqrt volumeCm3 s, ?_⟩
  rw [manufacturingPrice_eq, max_eq_right (le_of_lt h),
    estimatePrintTime_quantity cbrt sqrt volumeCm3 s]
  ring

lemma speedMultiplierOf_none : speedMultiplierOf none = 1 := by
  simp [speedMultiplierOf, speedMultipliers]
  norm_num

lemma speedMultiplierOf_regular : speedMultiplierOf (some "regular") = 1 := by
  simp [speedMultiplierOf, speedMultipliers]
  norm_num

/-- Concrete settings for the C8 witness: infill 0%, layer height 100 mm,
quantity 2, regular speed, pickup. -/
def settingsC8 : PrintSettings := ⟨"pla", 0, 100, 2, none, none, none⟩

example : estimatePrintTime (fun _ => 125) (fun _ => 10000) 1 settingsC8 = 224.2 := by
  norm_num [estimatePrintTime, settingsC8]

/-- Witness for C8: with concrete (oracle) cube-root/square-root values the
undiscounted per-unit cost exceeds $10 and the manufacturing price follows
the quantity-squared law. -/
theorem C8_quantity_squared_witness :
    10 < estimatePrintTime (fun _ => 125) (fun _ => 10000) 1 settingsC8 / 60 * 15 *
        speedMultiplierOf settingsC8.speed ∧
      (calculatePrice (estimatePrintTime (fun _ => 125) (fun _ => 10000) 1 settingsC8)
            settingsC8).manufacturingPrice =
        settingsC8.quantity ^ 2 * (1 - getQuantityDiscount settingsC8.quantity) *
          (estimatePrintTime (fun _ => 125) (fun _ => 10000) 1
              { settingsC8 with quantity := 1 } / 60 * 15 *
            speedMultiplierOf settingsC8.speed) :=
  ⟨by norm_num [estimatePrintTime, settingsC8, speedMultiplierOf_none],
    (C8_quantity_squared (fun _ => 125) (fun _ => 10000) 1 settingsC8
      (by norm_num [estimatePrintTime, settingsC8, speedMultiplierOf_none])).2⟩

/-! ## Orchestrator: `calculateFileVolume` and `calculatePrintEstimate`

`src/unnamed/part_000` lines 641-681 and 876-909.  A format parser is
modelled by its outcome: either a thrown error (`Except.error`) or a
returned JS number (`Except.ok`), the latter possibly non-finite. -/

/-- A JavaScript `number` as far as the validations of the source inspect
it: a finite rational, `NaN`, or `±Infinity`. -/
inductive JsNum where
  | fin (q : ℚ)
  | nan
  | inf
  | ninf
deriving DecidableEq, Repr

/-- JS `isFinite`. -/
def JsNum.isFinite : JsNum → Bool
  | .fin _ => true
  | _ => false

/-- JS falsiness of a number (`!volume`): `0` and `NaN` are falsy. -/
def JsNum.falsy : JsNum → Bool
  | .fin q => q = 0
  | .nan => true
  | _ => false

/-- JS `volume <= 0` (`NaN <= 0` is false, `-Infinity <= 0` is true). -/
def JsNum.leZero : JsNum → Bool
  | .fin q => q ≤ 0
  | .nan => false
  | .inf => false
  | .ninf => true

/-- The rational carried by a finite JS number (0 otherwise). -/
def JsNum.toQ : JsNum → ℚ
  | .fin q => q
  | _ => 0

/-- The volume validation of `calculateFileVolume` (line 665):
`!volume || volume <= 0 || !isFinite(volume)`. -/
def invalidVolume (v : JsNum) : Bool :=
  v.falsy || v.leZero || !v.isFinite

/-- The extension dispatch of `calculateFileVolume` (lines 648-660): `stl`,
`obj` and `3mf` run their parser (whose outcome is the corresponding
parameter), any other extension throws `Unsupported file format`. -/
def dispatchParser (ext : String) (parseStl parseObj parse3mf : Except Unit JsNum) :
    Except Unit JsNum :=
  if ext = "stl" then parseStl
  else if ext = "obj" then parseObj
  else if ext = "3mf" then parse3mf
  else .error ()

/-- The file-size fallback volume (lines 667-669 and 676-677):
`max(0.1, fileSizeMB * 15)` with `fileSizeMB = size / (1024*1024)`. -/
def fallbackVolume (fileSize : ℕ) : ℚ :=
  max 0.1 ((fileSize : ℚ) / (1024 * 1024) * 15)

/-- `calculateFileVolume` (lines 641-681): dispatch by extension inside a
`try`; a thrown error or an invalid parsed volume is replaced by the
file-size fallback, a valid parsed volume is returned as is. -/
def calculateFileVolume (ext : String) (fileSize : ℕ)
    (parseStl parseObj parse3mf : Except Unit JsNum) : ℚ :=
  match dispatchParser ext parseStl parseObj parse3mf with
  | .error _ => fallbackVolume fileSize
  | .ok v => if invalidVolume v then fallbackVolume fileSize else v.toQ

/-- JS `Math.round`: round half away from zero for non-negative inputs
(`floor(x + 1/2)`, which is exactly `Math.round` on all finite doubles). -/
def jsRound (x : ℚ) : ℤ := ⌊x + 1 / 2⌋

/-- `Math.round(x * 10) / 10` — round to 1 decimal place. -/
def roundTo1 (x : ℚ) : ℚ := (jsRound (x * 10) : ℚ) / 10

/-- `Math.round(x * 100) / 100` — round to 2 decimal places. -/
def roundTo2 (x : ℚ) : ℚ := (jsRound (x * 100) : ℚ) / 100

/-- The `PrintEstimate` output record (lines 15-23). -/
structure PrintEstimate where
  volume : ℚ
  filamentGrams : ℚ
  filamentMeters : ℚ
  estimatedTime : ℚ
  price : ℚ
  manufacturingPrice : ℚ
  deliveryPrice : ℚ
deriving DecidableEq, Repr

instance : Inhabited PrintEstimate := ⟨⟨0, 0, 0, 0, 0, 0, 0⟩⟩

/-- JS `isFinite` on a value the exact-arithmetic model produces as a plain
rational: always true (every rational is a finite number). -/
def isFiniteQ (_ : ℚ) : Bool := true

/-- The volume validation of `calculatePrintEstimate` (line 883):
`!volume || volume <= 0 || !isFinite(volume)` on the rational returned by
`calculateFileVolume`. -/
def invalidVolumeQ (v : ℚ) : Bool :=
  v = 0 || v ≤ 0 || !isFiniteQ v

/-- Typed failures of `calculatePrintEstimate`. -/
inductive EstimateError where
  | volumeInvalid
  | resultsInvalid
deriving DecidableEq, Repr

/-- `calculatePrintEstimate` (lines 876-909): volume, validation, filament
mass/length, time, price, result validation, rounding and packaging.  Note
line 904: `estimatedTime: Math.round(estimatedTime)` — nearest integer, not
1 decimal. -/
def calculatePrintEstimate (cbrt sqrt : ℚ → ℚ) (pi : ℚ) (ext : String) (fileSize : ℕ)
    (parseStl parseObj parse3mf : Except Unit JsNum) (settings : PrintSettings) :
    Except EstimateError PrintEstimate :=
  let volume := calculateFileVolume ext fileSize parseStl parseObj parse3mf
  if invalidVolumeQ volume then .error .volumeInvalid
  else
    let filamentGrams := estimateFilamentGrams cbrt sqrt volume settings
    let filamentMeters := estimateFilamentMeters pi filamentGrams settings.material
    let estimatedTime := estimatePrintTime cbrt sqrt volume settings
    let priceBreakdown := calculatePrice estimatedTime settings
    if !(isFiniteQ filamentGrams && isFiniteQ filamentMeters && isFiniteQ estimatedTime &&
        isFiniteQ priceBreakdown.totalPrice && isFiniteQ priceBreakdown.manufacturingPrice &&
        isFiniteQ priceBreakdown.deliveryPrice) then
      .error .resultsInvalid
    else
      .ok
        { volume := roundTo1 volume
          filamentGrams := roundTo1 filamentGrams
          filamentMeters := roundTo1 filamentMeters
          estimatedTime := (jsRound estimatedTime : ℚ)
          price := roundTo2 priceBreakdown.totalPrice
          manufacturingPrice := roundTo2 priceBreakdown.manufacturingPrice
          deliveryPrice := roundTo2 priceBreakdown.deliveryPrice }

/-- C1: whenever the dispatched parser throws, or returns a volume that is
falsy, non-positive or non-finite, `calculateFileVolume` does not surface the
error: it returns the file-size fallback `max(0.1, fileSizeMB × 15)` cm³. -/
theorem C1_fallback_on_parser_failure (ext : String) (fileSize : ℕ)
    (parseStl parseObj parse3mf : Except Unit JsNum)
    (h : ∀ v, dispatchParser ext parseStl parseObj parse3mf = .ok v → invalidVolume v = true) :
    calculateFileVolume ext fileSize parseStl parseObj parse3mf =
      max 0.1 ((fileSize : ℚ) / (1024 * 1024) * 15) := by
  unfold calculateFileVolume
  rcases hd : dispatchParser ext parseStl parseObj parse3mf with e | v
  · rfl
  · show (if invalidVolume v = true then fallbackVolume fileSize else v.toQ) = _
    rw [h v hd]
    rfl

/-- Witness for C1: an STL parse that throws, on a 2 MiB file, falls back to
`max(0.1, 2 × 15) = 30` cm³. -/
theorem C1_fallback_on_parser_failure_witness :
    calculateFileVolume "stl" 2097152 (.error ()) (.ok (.fin 1)) (.ok (.fin 1)) =
      max 0.1 ((2097152 : ℚ) / (1024 * 1024) * 15) :=
  C1_fallback_on_parser_failure "stl" 2097152 (.error ()) (.ok (.fin 1)) (.ok (.fin 1))
    (by intro v hv; cases hv)

/-- `calculateFileVolume` always returns a strictly positive rational. -/
lemma calculateFileVolume_pos (ext : String) (fileSize : ℕ)
    (parseStl parseObj parse3mf : Except Unit JsNum) :
    0 < calculateFileVolume ext fileSize parseStl parseObj parse3mf := by
  have hfb : (0.1 : ℚ) ≤ fallbackVolume fileSize := le_max_left _ _
  unfold calculateFileVolume
  rcases dispatchParser ext parseStl parseObj parse3mf with e | v
  · calc (0 : ℚ) < 0.1 := by norm_num
      _ ≤ fallbackVolume fileSize := hfb
  · rcases v with q | _ | _ | _
    · show 0 < if invalidVolume (.fin q) = true then fallbackVolume fileSize
        else (JsNum.fin q).toQ
      by_cases hq : invalidVolume (.fin q) = true
      · rw [if_pos hq]
        calc (0 : ℚ) < 0.1 := by norm_num
          _ ≤ fallbackVolume fileSize := hfb
      · rw [if_neg hq]
        simp only [invalidVolume, JsNum.falsy, JsNum.leZero, JsNum.isFinite, Bool.or_eq_true,
          decide_eq_true_eq, Bool.not_true, Bool.or_false, Bool.not_eq_true] at hq
        push_neg at hq
        simpa [JsNum.toQ] using hq.2
    · simp [invalidVolume, JsNum.falsy]
      calc (0 : ℚ) < 0.1 := by norm_num
        _ ≤ fallbackVolume fileSize := hfb
    · simp [invalidVolume, JsNum.falsy, JsNum.leZero, JsNum.isFinite]
      calc (0 : ℚ) < 0.1 := by norm_num
        _ ≤ fallbackVolume fileSize := hfb
    · simp [invalidVolume, JsNum.falsy, JsNum.leZero]
      calc (0 : ℚ) < 0.1 := by norm_num
        _ ≤ fallbackVolume fileSize := hfb

/-- The volume-validation condition of `calculatePrintEstimate` is false on
every value `calculateFileVolume` can return. -/
lemma calculateFileVolume_valid (ext : String) (fileSize : ℕ)
    (parseStl parseObj parse3mf : Except Unit JsNum) :
    invalidVolumeQ (calculateFileVolume ext fileSize parseStl parseObj parse3mf) = false := by
  have hpos := calculateFileVolume_pos ext fileSize parseStl parseObj parse3mf
  simp [invalidVolumeQ, isFiniteQ, ne_of_gt hpos, not_le.mpr hpos]

/-- C9: `calculateFileVolume` always returns a strictly positive (hence
finite, in exact arithmetic) volume — the fallback is at least 0.1 cm³ — so
the volume-validation failure branch of `calculatePrintEstimate` is
unreachable. -/
theorem C9_volume_validation_unreachable (cbrt sqrt : ℚ → ℚ) (pi : ℚ) (ext : String)
    (fileSize : ℕ) (parseStl parseObj parse3mf : Except Unit JsNum)
    (settings : PrintSettings) :
    0 < calculateFileVolume ext fileSize parseStl parseObj parse3mf ∧
      0.1 ≤ fallbackVolume fileSize ∧
      invalidVolumeQ (calculateFileVolume ext fileSize parseStl parseObj parse3mf) = false ∧
      calculatePrintEstimate cbrt sqrt pi ext fileSize parseStl parseObj parse3mf settings ≠
        .error .volumeInvalid := by
  refine ⟨calculateFileVolume_pos ext fileSize parseStl parseObj parse3mf, le_max_left _ _,
    calculateFileVolume_valid ext fileSize parseStl parseObj parse3mf, ?_⟩
  unfold calculatePrintEstimate
  simp [calculateFileVolume_valid ext fileSize parseStl parseObj parse3mf, isFiniteQ]

/-! ## Rounding of the final estimate (C5) -/

/-- `out` is `raw` rounded to precision `step`: dividing out the step leaves
an integer, and `out` is within half a step of `raw`. -/
def IsRoundedTo (step out raw : ℚ) : Prop :=
  (out / step).den = 1 ∧ |out - raw| ≤ step / 2

instance (step out raw : ℚ) : Decidable (IsRoundedTo step out raw) := by
  unfold IsRoundedTo; infer_instance

/-- `jsRound (x / s) * s` is `x` rounded to precision `s`. -/
lemma isRoundedTo_jsRound (s x : ℚ) (hs : 0 < s) :
    IsRoundedTo s ((jsRound (x / s) : ℚ) * s) x := by
  have hne : s ≠ 0 := ne_of_gt hs
  constructor
  · rw [mul_div_assoc, div_self hne, mul_one]
    exact Rat.den_intCast _
  · have h1 : (jsRound (x / s) : ℚ) ≤ x / s + 1 / 2 := Int.floor_le _
    have h2 : x / s + 1 / 2 < (jsRound (x / s) : ℚ) + 1 := Int.lt_floor_add_one _
    have hxs : x / s * s = x := div_mul_cancel₀ x hne
    have u1 : (jsRound (x / s) : ℚ) * s ≤ x + s / 2 := by
      calc (jsRound (x / s) : ℚ) * s ≤ (x / s + 1 / 2) * s :=
            mul_le_mul_of_nonneg_right h1 hs.le
        _ = x + s / 2 := by rw [add_mul, hxs]; ring
    have u2 : x - s / 2 < (jsRound (x / s) : ℚ) * s := by
      have h2' : x / s - 1 / 2 < (jsRound (x / s) : ℚ) := by linarith
      calc x - s / 2 = (x / s - 1 / 2) * s := by rw [sub_mul, hxs]; ring
        _ < (jsRound (x / s) : ℚ) * s := mul_lt_mul_of_pos_right h2' hs
    rw [abs_le]
    constructor <;> linarith

lemma isRoundedTo_roundTo1 (x : ℚ) : IsRoundedTo (1 / 10) (roundTo1 x) x := by
  have h := isRoundedTo_jsRound (1 / 10) x (by norm_num)
  have e1 : x / (1 / 10 : ℚ) = x * 10 := by ring
  have e2 : (jsRound (x * 10) : ℚ) * (1 / 10) = (jsRound (x * 10) : ℚ) / 10 := by ring
  rwa [e1, e2] at h

lemma isRoundedTo_roundTo2 (x : ℚ) : IsRoundedTo (1 / 100) (roundTo2 x) x := by
  have h := isRoundedTo_jsRound (1 / 100) x (by norm_num)
  have e1 : x / (1 / 100 : ℚ) = x * 100 := by ring
  have e2 : (jsRound (x * 100) : ℚ) * (1 / 100) = (jsRound (x * 100) : ℚ) / 100 := by ring
  rwa [e1, e2] at h

lemma isRoundedTo_jsRound_one (x : ℚ) : IsRoundedTo 1 (jsRound x : ℚ) x := by
  have h := isRoundedTo_jsRound 1 x (by norm_num)
  simpa using h

/-- C5 (amended): every estimate returned by `calculatePrintEstimate` has
`volume`, `filamentGrams` and `filamentMeters` rounded to 1 decimal place and
the three money fields rounded to 2 decimal places, but `estimatedTime` is
rounded to the nearest integer (precision 1), not to 1 decimal place. -/
theorem C5_output_rounding (cbrt sqrt : ℚ → ℚ) (pi : ℚ) (ext : String) (fileSize : ℕ)
    (parseStl parseObj parse3mf : Except Unit JsNum) (settings : PrintSettings)
    (est : PrintEstimate)
    (h : calculatePrintEstimate cbrt sqrt pi ext fileSize parseStl parseObj parse3mf settings =
      .ok est) :
    IsRoundedTo (1 / 10) est.volume
        (calculateFileVolume ext fileSize parseStl parseObj parse3mf) ∧
      IsRoundedTo (1 / 10) est.filamentGrams
        (estimateFilamentGrams cbrt sqrt
          (calculateFileVolume ext fileSize parseStl parseObj parse3mf) settings) ∧
      IsRoundedTo (1 / 10) est.filamentMeters
        (estimateFilamentMeters pi
          (estimateFilamentGrams cbrt sqrt
            (calculateFileVolume ext fileSize parseStl parseObj parse3mf) settings)
          settings.material) ∧
      IsRoundedTo 1 est.estimatedTime
        (estimatePrintTime cbrt sqrt
          (calculateFileVolume ext fileSize parseStl parseObj parse3mf) settings) ∧
      IsRoundedTo (1 / 100) est.price
        (calculatePrice
          (estimatePrintTime cbrt sqrt
            (calculateFileVolume ext fileSize parseStl parseObj parse3mf) settings)
          settings).totalPrice ∧
      IsRoundedTo (1 / 100) est.manufacturingPrice
        (calculatePrice
          (estimatePrintTime cbrt sqrt
            (calculateFileVolume ext fileSize parseStl parseObj parse3mf) settings)
          settings).manufacturingPrice ∧
      IsRoundedTo (1 / 100) est.deliveryPrice
        (calculatePrice
          (estimatePrintTime cbrt sqrt
            (calculateFileVolume ext fileSize parseStl parseObj parse3mf) settings)
          settings).deliveryPrice := by
  unfold calculatePrintEstimate at h
  simp only [calculateFileVolume_valid ext fileSize parseStl parseObj parse3mf, isFiniteQ,
    Bool.and_self, Bool.not_true, Bool.false_eq_true, if_false, Except.ok.injEq] at h
  subst h
  exact ⟨isRoundedTo_roundTo1 _, isRoundedTo_roundTo1 _, isRoundedTo_roundTo1 _,
    isRoundedTo_jsRound_one _, isRoundedTo_roundTo2 _, isRoundedTo_roundTo2 _,
    isRoundedTo_roundTo2 _⟩

/-! ### Concrete C5 instance

Oracle values: `cbrt` constantly `15.625`, `sqrt` constantly `0`, `pi = 3`;
a 1000-byte STL whose parse yields 1 cm³; PLA, 0% infill, 1 mm layers,
quantity 1, regular speed, pickup.  The raw print time is 1.3 minutes. -/

def cbrtC5 : ℚ → ℚ := fun _ => 15.625

def sqrtC5 : ℚ → ℚ := fun _ => 0

def settingsC5 : PrintSettings := ⟨"pla", 0, 1, 1, none, none, none⟩

/-- The estimate the concrete C5 instance produces: note `estimatedTime = 1`
even though the raw time is 1.3 minutes. -/
def estC5 : PrintEstimate := ⟨1, 0.5, 0.2, 1, 10, 10, 0⟩

lemma ceilC5 : ⌈(25 : ℚ) / 2⌉ = 13 := by
  rw [Int.ceil_eq_iff]
  norm_num

lemma volC5_eval : calculateFileVolume "stl" 1000 (.ok (.fin 1)) (.error ()) (.error ()) = 1 :=
  rfl

lemma gramsC5_eval : estimateFilamentGrams cbrtC5 sqrtC5 1 settingsC5 = 40176 / 78125 := by
  norm_num [estimateFilamentGrams, cbrtC5, sqrtC5, settingsC5, materialDensity,
    MATERIAL_DENSITIES]

lemma metersC5_eval : estimateFilamentMeters 3 (40176 / 78125) "pla" = 27648 / 153125 := by
  norm_num [estimateFilamentMeters, materialDensity, MATERIAL_DENSITIES]

lemma timeC5_eval : estimatePrintTime cbrtC5 sqrtC5 1 settingsC5 = 13 / 10 := by
  norm_num [estimatePrintTime, cbrtC5, sqrtC5, settingsC5, ceilC5]

lemma priceC5_eval : calculatePrice (13 / 10) settingsC5 = ⟨10, 10, 0⟩ := by
  simp only [calculatePrice, settingsC5, speedMultiplierOf_none]
  norm_num [getQuantityDiscount, max_def]

lemma estC5_eval :
    calculatePrintEstimate cbrtC5 sqrtC5 3 "stl" 1000 (.ok (.fin 1)) (.error ()) (.error ())
      settingsC5 = .ok estC5 := by
  have hq1 : invalidVolumeQ 1 = false := rfl
  have hm : settingsC5.material = "pla" := rfl
  unfold calculatePrintEstimate
  simp only [volC5_eval, hq1, Bool.false_eq_true, if_false, hm, gramsC5_eval, metersC5_eval,
    timeC5_eval, priceC5_eval, isFiniteQ, Bool.and_self, Bool.not_true]
  norm_num [roundTo1, roundTo2, jsRound, estC5]

/-- C5 counterexample: on the concrete instance the returned estimate is
`estC5` with `estimatedTime = 1`, but the raw estimated time is 1.3 minutes,
so `estimatedTime` is NOT the raw time rounded to 1 decimal place (it is off
by 0.3 > 0.05). -/
theorem C5_rounding_counterexample :
    (calculatePrintEstimate cbrtC5 sqrtC5 3 "stl" 1000 (.ok (.fin 1)) (.error ()) (.error ())
        settingsC5).toOption.getD default = estC5 ∧
      ¬ IsRoundedTo (1 / 10)
          ((calculatePrintEstimate cbrtC5 sqrtC5 3 "stl" 1000 (.ok (.fin 1)) (.error ())
              (.error ()) settingsC5).toOption.getD default).estimatedTime
          (estimatePrintTime cbrtC5 sqrtC5
            (calculateFileVolume "stl" 1000 (.ok (.fin 1)) (.error ()) (.error ()))
            settingsC5) := by
  rw [estC5_eval, volC5_eval, timeC5_eval]
  refine ⟨rfl, ?_⟩
  intro h
  have := h.2
  simp only [Except.toOption, Option.getD_some, estC5] at this
  norm_num [abs_le] at this

/-- Witness for the amended C5 theorem at the concrete instance: the returned
`estimatedTime` is the raw time rounded to the nearest integer, and the
returned `volume` is the raw volume rounded to 1 decimal. -/
theorem C5_output_rounding_witness :
    IsRoundedTo (1 / 10) estC5.volume
        (calculateFileVolume "stl" 1000 (.ok (.fin 1)) (.error ()) (.error ())) ∧
      IsRoundedTo 1 estC5.estimatedTime
        (estimatePrintTime cbrtC5 sqrtC5
          (calculateFileVolume "stl" 1000 (.ok (.fin 1)) (.error ()) (.error ()))
          settingsC5) :=
  ⟨(C5_output_rounding cbrtC5 sqrtC5 3 "stl" 1000 (.ok (.fin 1)) (.error ()) (.error ())
      settingsC5 estC5 estC5_eval).1,
    (C5_output_rounding cbrtC5 sqrtC5 3 "stl" 1000 (.ok (.fin 1)) (.error ()) (.error ())
      settingsC5 estC5 estC5_eval).2.2.2.1⟩

/-! ## STL binary/ASCII dispatch (C2)

`calculateSTLVolume` / `parseBinarySTL` / `parseASCIISTL`
(`src/unnamed/part_000` lines 53-268).  A buffer is a list of byte values.
After `parseBinarySTL`'s length check, neither parser can throw: the binary
loop stops early when the buffer runs short and the ASCII parser only
accumulates vertices, so each numeric body is abstracted as a total
function of the buffer. -/

/-- The STL error (`throw new Error("Invalid STL file: too short")`). -/
inductive STLError where
  | invalidFormat (msg : String)
deriving DecidableEq, Repr

/-- The binary/ASCII detection of `calculateSTLVolume` (lines 58-59):
`uint8Array[80] !== undefined && (uint8Array[80] < 32 || uint8Array[80] > 126)`. -/
def isBinarySTL (data : List ℕ) : Bool :=
  match data[80]? with
  | some b => b < 32 || 126 < b
  | none => false

/-- `parseBinarySTL` (lines 71-177): buffers shorter than 84 bytes throw
`Invalid STL file: too short`; otherwise the two-pass numeric body
(abstracted as `body`) returns a volume. -/
def parseBinarySTL (body : List ℕ → ℚ) (data : List ℕ) : Except STLError ℚ :=
  if data.length < 84 then .error (.invalidFormat "Invalid STL file: too short")
  else .ok (body data)

/-- `parseASCIISTL` (lines 182-268): never throws; the line-oriented numeric
body (abstracted as `body`) returns a volume. -/
def parseASCIISTL (body : List ℕ → ℚ) (data : List ℕ) : Except STLError ℚ :=
  .ok (body data)

/-- `calculateSTLVolume` (lines 53-66): byte-80 printability dispatch between
the binary and ASCII parsers. -/
def calculateSTLVolume (binBody asciiBody : List ℕ → ℚ) (data : List ℕ) :
    Except STLError ℚ :=
  if isBinarySTL data then parseBinarySTL binBody data
  else parseASCIISTL asciiBody data

/-- C2 counterexample: the empty buffer is shorter than 84 bytes, yet
`calculateSTLVolume` does not fail — byte 80 does not exist, so the buffer is
classified as ASCII and a volume is returned. -/
theorem C2_short_buffer_counterexample :
    (List.length ([] : List ℕ) < 84) ∧
      calculateSTLVolume (fun _ => 0) (fun _ => 0) [] = .ok 0 := by
  constructor
  · norm_num
  · rfl

/-- C2 (amended): a buffer shorter than 84 bytes fails with
`InvalidFormat("too short")` exactly when it is detected as binary (byte 80
exists and is outside printable ASCII 32..126); a short buffer detected as
ASCII goes through the ASCII parser and yields a volume, not an error. -/
theorem C2_short_buffer (binBody asciiBody : List ℕ → ℚ) (data : List ℕ)
    (h : data.length < 84) :
    (isBinarySTL data = true →
        calculateSTLVolume binBody asciiBody data =
          .error (.invalidFormat "Invalid STL file: too short")) ∧
      (isBinarySTL data = false →
        calculateSTLVolume binBody asciiBody data = .ok (asciiBody data)) := by
  constructor
  · intro hb
    rw [calculateSTLVolume, if_pos hb, parseBinarySTL, if_pos h]
  · intro hb
    rw [calculateSTLVolume, hb]
    rfl

/-- Witness for C2 (amended): an 81-byte all-zero buffer is detected as
binary (byte 80 = 0 is non-printable) and fails with the `too short`
error. -/
theorem C2_short_buffer_witness :
    isBinarySTL (List.replicate 81 0) = true ∧
      calculateSTLVolume (fun _ => 0) (fun _ => 0) (List.replicate 81 0) =
        .error (.invalidFormat "Invalid STL file: too short") :=
  ⟨by decide,
    (C2_short_buffer (fun _ => 0) (fun _ => 0) (List.replicate 81 0) (by decide)).1 (by decide)⟩

/-! ## 3MF mesh volume (C6)

`calculateVolumeFromMeshes` (`src/unnamed/part_000` lines 497-636): a mesh
is its parsed vertex list and its triangle index triples (`parseInt` of the
`v1`/`v2`/`v3` attributes, `-1` when missing); the vertex coordinates are
multiplied by the unit factor, the centroid of all vertices of all meshes is
the reference point, and out-of-range triangle indices are skipped. -/

/-- A `<mesh>` element's parsed content. -/
structure Mesh3MF where
  vertices : List Vec3
  triangles : List (ℤ × ℤ × ℤ)
deriving DecidableEq, Repr

/-- JS `String.prototype.toLowerCase`, character by character. -/
def lowerString (s : String) : String :=
  ⟨s.data.map Char.toLower⟩

/-- The `unitToMm` table with the `|| 1` fallback
(`unitToMm[unit.toLowerCase()] || 1`, lines 501-509). -/
def unitToMm (unit : String) : ℚ :=
  if lowerString unit = "meter" then 1000
  else if lowerString unit = "millimeter" then 1
  else if lowerString unit = "inch" then 25.4
  else if lowerString unit = "foot" then 304.8
  else if lowerString unit = "micron" then 0.001
  else 1

/-- Coordinate-wise multiplication by the unit factor (lines 538-542). -/
def scaleVec (k : ℚ) (v : Vec3) : Vec3 :=
  ⟨v.x * k, v.y * k, v.z * k⟩

/-- A mesh's vertices after unit conversion. -/
def scaledVertices (k : ℚ) (m : Mesh3MF) : List Vec3 :=
  m.vertices.map (scaleVec k)

/-- The triangle loop of one mesh (lines 607-627): skip an index triple
unless all three indices are in range, otherwise add the signed tetrahedron
volume against the reference point. -/
def meshTriVolumes (ref : Vec3) (mv : List Vec3) (tris : List (ℤ × ℤ × ℤ)) : ℚ :=
  (tris.map fun t =>
    if 0 ≤ t.1 ∧ 0 ≤ t.2.1 ∧ 0 ≤ t.2.2 ∧ t.1 < (mv.length : ℤ) ∧ t.2.1 < (mv.length : ℤ) ∧
        t.2.2 < (mv.length : ℤ) then
      calculateTetrahedronVolume (mv.getD t.1.toNat ⟨0, 0, 0⟩) (mv.getD t.2.1.toNat ⟨0, 0, 0⟩)
        (mv.getD t.2.2.toNat ⟨0, 0, 0⟩) (some ref)
    else 0).sum

/-- The body of `calculateVolumeFromMeshes` once the unit factor `k` is
fixed: collect all scaled vertices, take their centroid as reference point,
sum the per-mesh triangle volumes, return `|total| / 1000`. -/
def volumeFromMeshesCore (k : ℚ) (meshes : List Mesh3MF) : ℚ :=
  let allVertices := (meshes.map (scaledVertices k)).flatten
  let ref := centroid allVertices
  |(meshes.map fun m => meshTriVolumes ref (scaledVertices k m) m.triangles).sum| / 1000

/-- `calculateVolumeFromMeshes` (lines 497-636). -/
def calculateVolumeFromMeshes (meshes : List Mesh3MF) (unit : String) : ℚ :=
  volumeFromMeshesCore (unitToMm unit) meshes

/-- Scaling all raw coordinates of a mesh by `k`. -/
def scaleMesh (k : ℚ) (m : Mesh3MF) : Mesh3MF :=
  ⟨m.vertices.map (scaleVec k), m.triangles⟩

lemma scaleVec_scaleVec (k a : ℚ) (v : Vec3) :
    scaleVec k (scaleVec a v) = scaleVec (a * k) v := by
  simp [scaleVec, mul_assoc]

lemma scaleMesh_triangles (a : ℚ) (m : Mesh3MF) : (scaleMesh a m).triangles = m.triangles :=
  rfl

lemma scaledVertices_scaleMesh (k a : ℚ) (m : Mesh3MF) :
    scaledVertices k (scaleMesh a m) = scaledVertices (a * k) m := by
  simp [scaledVertices, scaleMesh, List.map_map, Function.comp_def, scaleVec_scaleVec]

lemma volumeFromMeshesCore_scale (k a : ℚ) (ms : List Mesh3MF) :
    volumeFromMeshesCore k (ms.map (scaleMesh a)) = volumeFromMeshesCore (a * k) ms := by
  unfold volumeFromMeshesCore
  simp only [List.map_map, Function.comp_def, scaledVertices_scaleMesh, scaleMesh_triangles]

/-- C6: the unit table is meter=1000, millimeter=1, inch=25.4, foot=304.8,
micron=0.001, anything else 1; and (exact arithmetic) a meter-unit model with
all coordinates scaled by 1/1000 yields exactly the volume of the
equivalent millimeter-unit model. -/
theorem C6_unit_conversion :
    (unitToMm "meter" = 1000 ∧ unitToMm "millimeter" = 1 ∧ unitToMm "inch" = 25.4 ∧
        unitToMm "foot" = 304.8 ∧ unitToMm "micron" = 0.001 ∧
        (∀ u : String, lowerString u ≠ "meter" → lowerString u ≠ "millimeter" →
          lowerString u ≠ "inch" → lowerString u ≠ "foot" → lowerString u ≠ "micron" →
          unitToMm u = 1)) ∧
      ∀ meshes : List Mesh3MF,
        calculateVolumeFromMeshes (meshes.map (scaleMesh (1 / 1000))) "meter" =
          calculateVolumeFromMeshes meshes "millimeter" := by
  constructor
  · refine ⟨rfl, rfl, rfl, rfl, rfl, ?_⟩
    intro u h1 h2 h3 h4 h5
    unfold unitToMm
    rw [if_neg h1, if_neg h2, if_neg h3, if_neg h4, if_neg h5]
  · intro meshes
    unfold calculateVolumeFromMeshes
    rw [volumeFromMeshesCore_scale, show unitToMm "meter" = 1000 from rfl,
      show unitToMm "millimeter" = 1 from rfl]
    norm_num

/-- Witness for C6: an unrecognized unit string falls back to factor 1, and
the meter/millimeter equivalence holds on a concrete one-triangle mesh. -/
theorem C6_unit_conversion_witness :
    unitToMm "banana" = 1 ∧
      calculateVolumeFromMeshes
          ([⟨[⟨0, 0, 0⟩, ⟨10, 0, 0⟩, ⟨0, 10, 0⟩], [(0, 1, 2)]⟩].map (scaleMesh (1 / 1000)))
          "meter" =
        calculateVolumeFromMeshes [⟨[⟨0, 0, 0⟩, ⟨10, 0, 0⟩, ⟨0, 10, 0⟩], [(0, 1, 2)]⟩]
          "millimeter" :=
  ⟨C6_unit_conversion.1.2.2.2.2.2 "banana" (by decide) (by decide) (by decide) (by decide)
      (by decide),
    C6_unit_conversion.2 [⟨[⟨0, 0, 0⟩, ⟨10, 0, 0⟩, ⟨0, 10, 0⟩], [(0, 1, 2)]⟩]⟩
